import Mathlib

/-!
Verification development for the LiveDance backend (src/backend/app.py).

The Python source is shallowly embedded: Python floats are modelled as
rationals (`ℚ`) for the bookkeeping pipeline (frame buffer, mistake tracker,
report synthesis, 2-D smoothing) and as reals (`ℝ`) for the 3-D angle
computations that use `sqrt`/`arccos`.  Python `round(x, n)` uses
round-half-to-even, modelled by `roundHalfEvenQ`; `int(x)` on nonnegative
floats truncates, modelled by `Int.toNat ∘ Int.floor`; `str(n)` on a
nonnegative integer is modelled by `natRepr` (decimal digit rendering).
Python dicts (whose iteration order is insertion order) are modelled as
association lists, and `sorted(..., reverse=True)` (a stable sort) is
modelled with `List.insertionSort` over the reflexive "greater or equal on
the key" relation, which places earlier elements first among ties exactly
as a stable descending sort does.
-/

namespace LiveDance

/-- Round-half-to-even (banker's rounding) on rationals, modelling Python's
`round` builtin applied to a nonnegative value. -/
def roundHalfEvenQ (q : ℚ) : ℤ :=
  let f : ℤ := ⌊q⌋
  let r : ℚ := q - f
  if r < 1/2 then f
  else if 1/2 < r then f + 1
  else if f % 2 = 0 then f else f + 1

/-- Python `round(x, 2)`. -/
def round2 (q : ℚ) : ℚ := (roundHalfEvenQ (q * 100) : ℚ) / 100

/-- Python `round(x, 1)`. -/
def round1 (q : ℚ) : ℚ := (roundHalfEvenQ (q * 10) : ℚ) / 10

/-- Python `round(x)` (which returns an int), re-embedded into `ℚ`. -/
def roundQ (q : ℚ) : ℚ := (roundHalfEvenQ q : ℚ)

/-- Decimal rendering of a natural number, modelling Python's `str`/f-string
formatting of a nonnegative int.  Digits are produced by `Nat.digits 10`
(little-endian) and reversed. -/
def natRepr (n : Nat) : String :=
  if n = 0 then "0"
  else ⟨((Nat.digits 10 n).reverse.map Nat.digitChar)⟩

/-- Python f-string `{n:02d}` zero-padding to two digits. -/
def pad2 (n : Nat) : String :=
  if n < 10 then "0" ++ natRepr n else natRepr n

/-- Rendering of a rational in a Python f-string.  The exact digits of
Python's float formatting are irrelevant to every claim (only equality of
two renderings of the same value is ever used), so the value is rendered as
numerator and denominator. -/
def ratRepr (q : ℚ) : String :=
  (if q.num < 0 then "-" else "") ++ natRepr q.num.natAbs ++
    (if q.den = 1 then "" else "/" ++ natRepr q.den)

/-! ## Frame Slot: `LatestFrameBuffer` (app.py lines 436-470)

The mutex around each method makes every `put`/`get`/`get_stats` call
atomic; the embedding therefore models each call as a pure state
transformer on the buffer state. -/

/-- Contents of `self.frame_data` when a frame is pending: the dict built in
`LatestFrameBuffer.put` (app.py lines 451-456). -/
structure FrameData where
  bytes : String
  timestamp : ℚ
  sequence : Nat
  use3D : Bool
deriving DecidableEq

/-- State of `LatestFrameBuffer` (app.py lines 441-444). -/
structure LatestFrameBuffer where
  frame_data : Option FrameData
  dropped_count : Nat
deriving DecidableEq

/-- The freshly constructed buffer, `LatestFrameBuffer.__init__`. -/
def LatestFrameBuffer.init : LatestFrameBuffer :=
  { frame_data := none, dropped_count := 0 }

/-- Embedding of `LatestFrameBuffer.put` (app.py lines 446-456): store the
new frame, incrementing `dropped_count` when an undelivered frame is
overwritten. -/
def LatestFrameBuffer.put (b : LatestFrameBuffer) (frame_bytes : String)
    (timestamp : ℚ) (sequence : Nat) (use3D : Bool) : LatestFrameBuffer :=
  { frame_data := some ⟨frame_bytes, timestamp, sequence, use3D⟩,
    dropped_count := b.dropped_count + (if b.frame_data.isSome then 1 else 0) }

/-- Embedding of `LatestFrameBuffer.get` (app.py lines 458-463): return the
pending frame (or `none`) and clear the slot. -/
def LatestFrameBuffer.get (b : LatestFrameBuffer) :
    Option FrameData × LatestFrameBuffer :=
  (b.frame_data, { b with frame_data := none })

/-- Embedding of `LatestFrameBuffer.get_stats` (app.py lines 465-470): read
and reset the dropped-frame counter. -/
def LatestFrameBuffer.get_stats (b : LatestFrameBuffer) :
    Nat × LatestFrameBuffer :=
  (b.dropped_count, { b with dropped_count := 0 })

/-! ## Mistake tracker: `MistakeTracker` (app.py lines 40-293) -/

/-- An element of `self.error_history` / `self.major_errors`: the dict built
in `MistakeTracker.log_error` (app.py lines 77-83). -/
structure ErrorEntry where
  joint : String
  error_score : ℚ
  timestamp : ℚ
  frame : Nat
  screenshot_path : Option String
deriving DecidableEq

/-- State of `MistakeTracker` (app.py lines 45-61).  `error_counts` models
the Python dict as an insertion-ordered association list.  The two
threshold constants are the instance attributes set in `__init__`. -/
structure MistakeTracker where
  max_mistakes : Nat
  screenshot_dir : String
  error_history : List ErrorEntry
  error_counts : List (String × Nat)
  major_errors : List ErrorEntry
  session_start_time : ℚ
  session_id : String
  ERROR_THRESHOLD : ℚ
  SCREENSHOT_THRESHOLD : ℚ
deriving DecidableEq

/-- Embedding of `MistakeTracker.__init__` (app.py lines 45-61).  The wall
clock reading and the time-derived session id are parameters. -/
def initialTracker (max_mistakes : Nat) (session_id : String)
    (session_start_time : ℚ) (screenshot_dir : String := "mistake_screenshots") :
    MistakeTracker :=
  { max_mistakes := max_mistakes
    screenshot_dir := screenshot_dir
    error_history := []
    error_counts := []
    major_errors := []
    session_start_time := session_start_time
    session_id := session_id
    ERROR_THRESHOLD := 5
    SCREENSHOT_THRESHOLD := 15 }

/-- Arguments of one `MistakeTracker.log_error` call (app.py line 63).  The
frame image only matters through its presence, and is modelled by an
opaque numeric identifier. -/
structure LogArgs where
  joint_name : String
  error_score : ℚ
  timestamp : ℚ
  sequence : Nat
  frame_image : Option Nat
deriving DecidableEq

/-- The screenshot artifact file name built at app.py lines 87-90:
`f"{session_id}_frame{sequence}_{joint_name}_{int(error_score)}deg.jpg"`. -/
def screenshotFilename (session_id : String) (sequence : Nat)
    (joint_name : String) (error_score : ℚ) : String :=
  session_id ++ "_frame" ++ natRepr sequence ++ "_" ++ joint_name ++ "_" ++
    natRepr (Int.toNat ⌊error_score⌋) ++ "deg.jpg"

/-- The `error_entry` dict built by `log_error` (app.py lines 77-99),
including the screenshot path attached when the error is major and a frame
image was supplied. -/
def mkEntry (t : MistakeTracker) (a : LogArgs) : ErrorEntry :=
  { joint := a.joint_name
    error_score := round2 a.error_score
    timestamp := round2 a.timestamp
    frame := a.sequence
    screenshot_path :=
      if t.SCREENSHOT_THRESHOLD < a.error_score ∧ a.frame_image.isSome then
        some (t.screenshot_dir ++ "/" ++
          screenshotFilename t.session_id a.sequence a.joint_name a.error_score)
      else none }

/-- Appending to a `collections.deque` with `maxlen = cap`: when the deque
is full the oldest (leftmost) element is discarded. -/
def dequeAppend (cap : Nat) (h : List ErrorEntry) (e : ErrorEntry) :
    List ErrorEntry :=
  if h.length < cap then h ++ [e] else h.tail ++ [e]

/-- Incrementing `self.error_counts[joint]` via
`self.error_counts.get(joint_name, 0) + 1` (app.py line 103), preserving
dict insertion order. -/
def bumpCount (counts : List (String × Nat)) (j : String) :
    List (String × Nat) :=
  match counts with
  | [] => [(j, 1)]
  | (k, c) :: rest =>
      if k = j then (k, c + 1) :: rest else (k, c) :: bumpCount rest j

/-- Embedding of `MistakeTracker.log_error` (app.py lines 63-103): record an
entry only when the score exceeds `ERROR_THRESHOLD`; additionally append it
to `major_errors` (with a screenshot path) when it exceeds
`SCREENSHOT_THRESHOLD` and a frame image is present. -/
def MistakeTracker.log_error (t : MistakeTracker) (a : LogArgs) :
    MistakeTracker :=
  if t.ERROR_THRESHOLD < a.error_score then
    let e := mkEntry t a
    { t with
      error_history := dequeAppend t.max_mistakes t.error_history e
      error_counts := bumpCount t.error_counts a.joint_name
      major_errors :=
        if t.SCREENSHOT_THRESHOLD < a.error_score ∧ a.frame_image.isSome then
          t.major_errors ++ [e]
        else t.major_errors }
  else t

/-- Folding a sequence of `log_error` calls over the tracker, first call
first. -/
def logList (t : MistakeTracker) (es : List LogArgs) : MistakeTracker :=
  es.foldl MistakeTracker.log_error t

/-! ## Report synthesis: `MistakeTracker.get_comprehensive_report`
(app.py lines 125-274) -/

/-- One element of the `frequent_mistakes` section (app.py lines 156-163). -/
structure FrequentEntry where
  joint : String
  count : Nat
  percentage : ℚ
deriving DecidableEq

/-- One element of the `worst_moments` section (app.py lines 172-183). -/
structure WorstEntry where
  joint : String
  error_score : ℚ
  timestamp : ℚ
  frame : Nat
  screenshot : String
  time_formatted : String
  suggestion : String
deriving DecidableEq

/-- The `session_summary` dict.  The empty-history branch (app.py lines
136-147) omits `session_id`, `duration_formatted` and
`average_error_degrees`; those keys are modelled as `Option` fields that
are `none` in that branch. -/
structure SessionSummary where
  session_id : Option String
  duration_seconds : ℚ
  duration_formatted : Option String
  total_errors : Nat
  major_errors : Nat
  average_error_degrees : Option ℚ
  performance_grade : String
deriving DecidableEq

/-- The dict returned by `get_comprehensive_report`.  The empty-history
branch omits `screenshot_directory`. -/
structure Report where
  session_summary : SessionSummary
  frequent_mistakes : List FrequentEntry
  worst_moments : List WorstEntry
  improvement_plan : List String
  screenshot_directory : Option String
deriving DecidableEq

/-- Python `sorted(l, key = key, reverse = True)`: a stable descending sort
by the key.  `List.insertionSort` over the relation "left key is at least
right key" keeps earlier elements first among ties, exactly like Python's
stable sort with `reverse=True`. -/
def pySortDesc {α β : Type} [LinearOrder β] (key : α → β) (l : List α) :
    List α :=
  List.insertionSort (fun a b => key b ≤ key a) l

/-- Embedding of `MistakeTracker._get_improvement_suggestion` (app.py lines
208-228). -/
def getImprovementSuggestion (joint_name : String) (error_score : ℚ) :
    String :=
  let base :=
    if joint_name = "left_elbow" then
      "Keep your left elbow aligned with your shoulder. Practice arm extensions slowly."
    else if joint_name = "right_elbow" then
      "Watch your right arm angle. Try mirror practice to check form."
    else if joint_name = "left_knee" then
      "Maintain proper left knee bend. Focus on leg strength exercises."
    else if joint_name = "right_knee" then
      "Your right knee alignment needs work. Practice squats for stability."
    else if joint_name = "left_shoulder" then
      "Relax your left shoulder and maintain natural posture."
    else if joint_name = "right_shoulder" then
      "Your right shoulder tends to drift. Check your upper body alignment."
    else if joint_name = "left_hip" then
      "Engage your core to stabilize left hip movement."
    else if joint_name = "right_hip" then
      "Focus on right hip positioning during transitions."
    else
      "Pay attention to " ++ joint_name.replace "_" " " ++ " positioning."
  if 25 < error_score then
    "CRITICAL: " ++ base ++ " This needs immediate attention."
  else if 15 < error_score then
    "IMPORTANT: " ++ base
  else base

/-- Embedding of `MistakeTracker._calculate_grade` (app.py lines 230-243). -/
def calculateGrade (avg_error : ℚ) (major_error_count : Nat) : String :=
  if major_error_count = 0 ∧ avg_error < 5 then "A+ Excellent!"
  else if major_error_count ≤ 2 ∧ avg_error < 8 then "A Great performance!"
  else if major_error_count ≤ 5 ∧ avg_error < 10 then "B+ Good work!"
  else if major_error_count ≤ 8 ∧ avg_error < 12 then "B Nice effort!"
  else if major_error_count ≤ 12 ∧ avg_error < 15 then "C+ Keep practicing!"
  else "C Room for improvement!"

/-- The f-string `f"{int(ts // 60)}:{int(ts % 60):02d}"` (app.py line 179),
for the nonnegative relative timestamps the tracker stores. -/
def timeFormatted (ts : ℚ) : String :=
  natRepr (Int.toNat ⌊ts / 60⌋) ++ ":" ++ pad2 (Int.toNat ⌊ts - 60 * ⌊ts / 60⌋⌋)

/-- The f-string `f"{int(d // 60)}m {int(d % 60)}s"` (app.py line 196). -/
def durationFormatted (d : ℚ) : String :=
  natRepr (Int.toNat ⌊d / 60⌋) ++ "m " ++ natRepr (Int.toNat ⌊d - 60 * ⌊d / 60⌋⌋) ++ "s"

/-- Embedding of `MistakeTracker._generate_improvement_plan` (app.py lines
245-274). -/
def generateImprovementPlan (frequent_mistakes : List FrequentEntry)
    (worst_moments : List WorstEntry) : List String :=
  match frequent_mistakes with
  | [] => ["Excellent form! Keep practicing to maintain consistency."]
  | top :: rest =>
    let p1 := "PRIMARY FOCUS: Work on your " ++ top.joint.replace "_" " " ++
      ". This was your most frequent issue (" ++ natRepr top.count ++ " times)."
    let p2 : List String :=
      if rest ≠ [] then
        let problem_joints := (rest.take 3).map (fun m => m.joint.replace "_" " ")
        ["SECONDARY FOCUS: Also pay attention to " ++
          String.intercalate ", " problem_joints ++ "."]
      else []
    let p3 : List String :=
      match worst_moments with
      | [] => []
      | worst :: _ =>
        ["CRITICAL MOMENT: At " ++ worst.time_formatted ++ ", your " ++
          worst.joint.replace "_" " " ++ " had a " ++ ratRepr worst.error_score ++
          " degree deviation. Review this screenshot carefully."]
    let p4 :=
      if 40 < top.percentage then
        "CONSISTENCY TIP: One joint is causing most issues. Focus intensive practice on this area."
      else
        "CONSISTENCY TIP: Errors are spread across multiple joints. Work on overall body awareness."
    p1 :: (p2 ++ p3 ++ [p4])

/-- Embedding of `MistakeTracker.get_comprehensive_report` (app.py lines
125-206).  `now` is the wall clock reading `time.time()` taken at line
134. -/
def MistakeTracker.get_comprehensive_report (t : MistakeTracker) (now : ℚ) :
    Report :=
  let session_duration := now - t.session_start_time
  if t.error_history = [] then
    { session_summary :=
        { session_id := none
          duration_seconds := round1 session_duration
          duration_formatted := none
          total_errors := 0
          major_errors := 0
          average_error_degrees := none
          performance_grade := "Perfect!" }
      frequent_mistakes := []
      worst_moments := []
      improvement_plan := ["Keep up the excellent work!"]
      screenshot_directory := none }
  else
    let frequent_mistakes := (pySortDesc Prod.snd t.error_counts).take 10
    let frequent_report : List FrequentEntry := frequent_mistakes.map
      (fun p => { joint := p.1, count := p.2,
                  percentage := round1 ((p.2 : ℚ) / (t.error_history.length : ℚ) * 100) })
    let worst_moments := (pySortDesc ErrorEntry.error_score
      (t.error_history.filter (fun e => e.screenshot_path.isSome))).take 10
    let worst_report : List WorstEntry := worst_moments.map
      (fun e =>
        { joint := e.joint
          error_score := e.error_score
          timestamp := e.timestamp
          frame := e.frame
          screenshot := e.screenshot_path.getD ""
          time_formatted := timeFormatted e.timestamp
          suggestion := getImprovementSuggestion e.joint e.error_score })
    let avg_error := (t.error_history.map ErrorEntry.error_score).sum /
      (t.error_history.length : ℚ)
    let grade := calculateGrade avg_error t.major_errors.length
    { session_summary :=
        { session_id := some t.session_id
          duration_seconds := round1 session_duration
          duration_formatted := some (durationFormatted session_duration)
          total_errors := t.error_history.length
          major_errors := t.major_errors.length
          average_error_degrees := some (round2 avg_error)
          performance_grade := grade }
      frequent_mistakes := frequent_report
      worst_moments := worst_report
      improvement_plan := generateImprovementPlan frequent_report worst_report
      screenshot_directory := some t.screenshot_dir }

/-- Embedding of `MistakeTracker.reset_tracker` (app.py lines 286-293). -/
def MistakeTracker.reset_tracker (t : MistakeTracker) (session_id : String)
    (now : ℚ) : MistakeTracker :=
  { t with
    error_history := []
    error_counts := []
    major_errors := []
    session_start_time := now
    session_id := session_id }

/-! ## Body and hand keypoints (app.py lines 549-583, 863-917) -/

/-- A body keypoint dict as built at app.py lines 875-881 and consumed by
`PoseSmoothing.smooth_body`. -/
structure Keypoint where
  name : String
  x : ℚ
  y : ℚ
  confidence : ℚ
  visible : Bool
deriving DecidableEq

/-- A hand keypoint dict as built at app.py lines 908-915. -/
structure HandKeypoint where
  name : String
  x : ℚ
  y : ℚ
  z : ℚ
  normalized_x : ℚ
  normalized_y : ℚ
deriving DecidableEq

/-- The `{"left": ..., "right": ...}` hand mapping. -/
structure HandsData where
  left : List HandKeypoint
  right : List HandKeypoint
deriving DecidableEq

/-- The constant `MOVENET_INDICES` (app.py line 561). -/
def MOVENET_INDICES : List Nat :=
  [0, 2, 5, 7, 8, 11, 12, 13, 14, 15, 16, 23, 24, 25, 26, 27, 28]

/-- The constant `MOVENET_NAMES` (app.py lines 562-567). -/
def MOVENET_NAMES : List String :=
  ["nose", "left_eye", "right_eye", "left_ear", "right_ear",
   "left_shoulder", "right_shoulder", "left_elbow", "right_elbow",
   "left_wrist", "right_wrist", "left_hip", "right_hip",
   "left_knee", "right_knee", "left_ankle", "right_ankle"]

/-! ## 3-D angle calculator (app.py lines 588-665), over `ℝ` -/

/-- A MediaPipe world landmark: a 3-D point with real coordinates. -/
structure WorldPoint where
  x : ℝ
  y : ℝ
  z : ℝ

/-- A 3-D vector, as built by `np.array([...])` in `calculate_angle_3d`. -/
structure Vec3 where
  x : ℝ
  y : ℝ
  z : ℝ

/-- The difference vector `np.array([p.x - q.x, p.y - q.y, p.z - q.z])`. -/
def vsub (p q : WorldPoint) : Vec3 := ⟨p.x - q.x, p.y - q.y, p.z - q.z⟩

/-- Embedding of `np.dot` on 3-D vectors. -/
def dot3 (a b : Vec3) : ℝ := a.x * b.x + a.y * b.y + a.z * b.z

/-- Embedding of `np.linalg.norm` on 3-D vectors. -/
noncomputable def norm3 (a : Vec3) : ℝ := Real.sqrt (dot3 a a)

/-- Scalar multiplication, modelling `v / norm` as `smul3 (1 / norm) v`. -/
def smul3 (c : ℝ) (a : Vec3) : Vec3 := ⟨c * a.x, c * a.y, c * a.z⟩

/-- Embedding of `np.clip(x, lo, hi)`. -/
noncomputable def clip (x lo hi : ℝ) : ℝ := min (max x lo) hi

/-- Round-half-to-even on reals, modelling Python `round` applied to the
(mathematically modelled) float angle. -/
noncomputable def roundHalfEvenR (q : ℝ) : ℤ :=
  let f : ℤ := ⌊q⌋
  let r : ℝ := q - f
  if r < 1/2 then f
  else if 1/2 < r then f + 1
  else if f % 2 = 0 then f else f + 1

/-- Python `round(x, 1)` on the real model. -/
noncomputable def round1R (q : ℝ) : ℝ := (roundHalfEvenR (q * 10) : ℝ) / 10

/-- Python `round(x, 3)` on the real model. -/
noncomputable def round3R (q : ℝ) : ℝ := (roundHalfEvenR (q * 1000) : ℝ) / 1000

/-- Embedding of `calculate_angle_3d` (app.py lines 588-606): the angle at
`p2` between `p2→p1` and `p2→p3`, in degrees, rounded to one decimal; `0`
when either vector is shorter than `1e-6`, and the cosine clipped to
`[-1, 1]` before `arccos`. -/
noncomputable def calculate_angle_3d (p1 p2 p3 : WorldPoint) : ℝ :=
  if norm3 (vsub p1 p2) < 1/1000000 ∨ norm3 (vsub p3 p2) < 1/1000000 then 0
  else
    round1R (Real.arccos (clip
      (dot3 (smul3 (1 / norm3 (vsub p1 p2)) (vsub p1 p2))
            (smul3 (1 / norm3 (vsub p3 p2)) (vsub p3 p2))) (-1) 1) *
      (180 / Real.pi))

/-- A 3-D coordinate entry of the `coords` map (app.py lines 659-663). -/
structure Coord3 where
  x : ℝ
  y : ℝ
  z : ℝ

/-- The fixed joint-index table `key_joints` (app.py lines 648-655). -/
def KEY_JOINTS : List (String × Nat) :=
  [("left_shoulder", 11), ("right_shoulder", 12),
   ("left_elbow", 13), ("right_elbow", 14),
   ("left_wrist", 15), ("right_wrist", 16),
   ("left_hip", 23), ("right_hip", 24),
   ("left_knee", 25), ("right_knee", 26),
   ("left_ankle", 27), ("right_ankle", 28)]

/-- Embedding of `calculate_3d_angles_mediapipe` (app.py lines 608-665):
eight named joint angles and twelve rounded joint coordinates, or empty
maps when fewer than 33 world landmarks are present. -/
noncomputable def calculate_3d_angles_mediapipe (wl : List WorldPoint) :
    List (String × ℝ) × List (String × Coord3) :=
  if 33 ≤ wl.length then
    let g := fun i => wl.getD i ⟨0, 0, 0⟩
    ([("left_elbow", calculate_angle_3d (g 11) (g 13) (g 15)),
      ("right_elbow", calculate_angle_3d (g 12) (g 14) (g 16)),
      ("left_knee", calculate_angle_3d (g 23) (g 25) (g 27)),
      ("right_knee", calculate_angle_3d (g 24) (g 26) (g 28)),
      ("left_shoulder", calculate_angle_3d (g 13) (g 11) (g 23)),
      ("right_shoulder", calculate_angle_3d (g 14) (g 12) (g 24)),
      ("left_hip", calculate_angle_3d (g 11) (g 23) (g 25)),
      ("right_hip", calculate_angle_3d (g 12) (g 24) (g 26))],
     KEY_JOINTS.map (fun p =>
       (p.1, ⟨round3R (g p.2).x, round3R (g p.2).y, round3R (g p.2).z⟩)))
  else ([], [])

/-! ## Temporal smoother: `PoseSmoothing` (app.py lines 670-780) -/

/-- State of `PoseSmoothing` (app.py lines 672-677).  The Python dict
`smoothed_hands = {'left': ..., 'right': ...}` becomes two fields. -/
structure PoseSmoothing where
  alpha : ℚ
  smoothed_body : Option (List Keypoint)
  smoothed_hands_left : Option (List HandKeypoint)
  smoothed_hands_right : Option (List HandKeypoint)
  smoothed_3d_angles : Option (List (String × ℝ))
  smoothed_3d_coords : Option (List (String × Coord3))

/-- Embedding of `PoseSmoothing.__init__` (app.py lines 672-677). -/
def PoseSmoothing.init (alpha : ℚ := 7/10) : PoseSmoothing :=
  { alpha := alpha
    smoothed_body := none
    smoothed_hands_left := none
    smoothed_hands_right := none
    smoothed_3d_angles := none
    smoothed_3d_coords := none }

/-- One blended body keypoint (app.py lines 692-698): `x` and `y` are EMA
blends, `name`/`confidence`/`visible` are taken from the new sample. -/
def blendKeypoint (alpha : ℚ) (lm prev : Keypoint) : Keypoint :=
  { name := lm.name
    x := alpha * lm.x + (1 - alpha) * prev.x
    y := alpha * lm.y + (1 - alpha) * prev.y
    confidence := lm.confidence
    visible := lm.visible }

/-- The indexed loop of `smooth_body` (app.py lines 688-700): each new
keypoint is blended with the prior entry at the same index, and passed
through unchanged when the prior list is shorter. -/
def smoothBodyList (alpha : ℚ) : List Keypoint → List Keypoint → List Keypoint
  | lms, [] => lms
  | [], _ :: _ => []
  | lm :: lms, prev :: prevs => blendKeypoint alpha lm prev :: smoothBodyList alpha lms prevs

/-- Embedding of `PoseSmoothing.smooth_body` (app.py lines 679-703),
returning the updated smoother state together with the returned list. -/
def PoseSmoothing.smooth_body (s : PoseSmoothing) (landmarks : List Keypoint) :
    PoseSmoothing × List Keypoint :=
  if landmarks = [] then (s, landmarks)
  else
    match s.smoothed_body with
    | none => ({ s with smoothed_body := some landmarks }, landmarks)
    | some prev =>
        let smoothed := smoothBodyList s.alpha landmarks prev
        ({ s with smoothed_body := some smoothed }, smoothed)

/-- One blended hand keypoint (app.py lines 724-731). -/
def blendHandKeypoint (alpha : ℚ) (lm prev : HandKeypoint) : HandKeypoint :=
  { name := lm.name
    x := alpha * lm.x + (1 - alpha) * prev.x
    y := alpha * lm.y + (1 - alpha) * prev.y
    z := lm.z
    normalized_x := lm.normalized_x
    normalized_y := lm.normalized_y }

/-- The indexed loop of `smooth_hands` (app.py lines 720-733). -/
def smoothHandList (alpha : ℚ) : List HandKeypoint → List HandKeypoint → List HandKeypoint
  | lms, [] => lms
  | [], _ :: _ => []
  | lm :: lms, prev :: prevs => blendHandKeypoint alpha lm prev :: smoothHandList alpha lms prevs

/-- One side of `PoseSmoothing.smooth_hands` (app.py lines 709-736): an
empty sample clears the per-side state and leaves the output side empty; a
first sample seeds the state and passes through. -/
def smoothHandSide (alpha : ℚ) (state : Option (List HandKeypoint))
    (landmarks : List HandKeypoint) :
    Option (List HandKeypoint) × List HandKeypoint :=
  if landmarks = [] then (none, [])
  else
    match state with
    | none => (some landmarks, landmarks)
    | some prev =>
        let smoothed := smoothHandList alpha landmarks prev
        (some smoothed, smoothed)

/-- Embedding of `PoseSmoothing.smooth_hands` (app.py lines 705-738). -/
def PoseSmoothing.smooth_hands (s : PoseSmoothing) (hands_data : HandsData) :
    PoseSmoothing × HandsData :=
  let l := smoothHandSide s.alpha s.smoothed_hands_left hands_data.left
  let r := smoothHandSide s.alpha s.smoothed_hands_right hands_data.right
  ({ s with smoothed_hands_left := l.1, smoothed_hands_right := r.1 },
   { left := l.2, right := r.2 })

/-- First-match lookup in an association list, modelling `key in dict` plus
`dict[key]`. -/
def alookup {β : Type} (l : List (String × β)) (k : String) : Option β :=
  match l with
  | [] => none
  | (k₂, v) :: rest => if k₂ = k then some v else alookup rest k

/-- Embedding of `PoseSmoothing.smooth_3d_angles` (app.py lines 740-757). -/
noncomputable def PoseSmoothing.smooth_3d_angles (s : PoseSmoothing)
    (angles : List (String × ℝ)) : PoseSmoothing × List (String × ℝ) :=
  if angles.isEmpty then (s, angles)
  else
    match s.smoothed_3d_angles with
    | none => ({ s with smoothed_3d_angles := some angles }, angles)
    | some prev =>
        let smoothed := angles.map (fun p =>
          match alookup prev p.1 with
          | some pv => (p.1, (s.alpha : ℝ) * p.2 + (1 - (s.alpha : ℝ)) * pv)
          | none => p)
        ({ s with smoothed_3d_angles := some smoothed }, smoothed)

/-- Embedding of `PoseSmoothing.smooth_3d_coords` (app.py lines 759-780). -/
noncomputable def PoseSmoothing.smooth_3d_coords (s : PoseSmoothing)
    (coords : List (String × Coord3)) : PoseSmoothing × List (String × Coord3) :=
  if coords.isEmpty then (s, coords)
  else
    match s.smoothed_3d_coords with
    | none => ({ s with smoothed_3d_coords := some coords }, coords)
    | some prev =>
        let smoothed := coords.map (fun p =>
          match alookup prev p.1 with
          | some pv =>
              (p.1, Coord3.mk
                ((s.alpha : ℝ) * p.2.x + (1 - (s.alpha : ℝ)) * pv.x)
                ((s.alpha : ℝ) * p.2.y + (1 - (s.alpha : ℝ)) * pv.y)
                ((s.alpha : ℝ) * p.2.z + (1 - (s.alpha : ℝ)) * pv.z))
          | none => p)
        ({ s with smoothed_3d_coords := some smoothed }, smoothed)

/-- Feeding the same body keypoint set to the smoother `n` times in a row;
the second component is the output of the last feed (meaningless for
`n = 0`). -/
def feedBody (s : PoseSmoothing) (k : List Keypoint) :
    Nat → PoseSmoothing × List Keypoint
  | 0 => (s, [])
  | n + 1 =>
      let p := feedBody s k n
      PoseSmoothing.smooth_body p.1 k

/-! ## One iteration of `inference_loop` (app.py lines 813-996)

The loop body is modelled as a pure function of the taken frame, oracle
results for the external calls (`cv2.imdecode`, the MediaPipe pose and hand
detectors, and the randomized `mock_pose_comparison`), and the loop's local
state.  Crucially, the Python local variable `use3D` is assigned only
inside the `if pose_results.pose_landmarks:` block (line 885) but read
unconditionally at line 924; since locals persist across iterations of the
`while` loop, the model carries it as an `Option Bool` that is `none` while
the variable is still unbound, and reading it while `none` raises
`UnboundLocalError`, which the `except` handler at line 992 catches
(no result is emitted).  Timing instrumentation, logging prints and the
`frame_buffer.get_stats` observability call do not affect the emitted
record and are not modelled. -/

/-- A normalized body landmark returned by the pose detector
(`pose_results.pose_landmarks.landmark[i]`). -/
structure RawLandmark where
  x : ℚ
  y : ℚ
  z : ℚ
  visibility : ℚ
deriving DecidableEq

/-- The decoded camera image: an opaque pixel identifier plus its original
dimensions (app.py lines 836-843). -/
structure DecodedImage where
  img : Nat
  width : Nat
  height : Nat
deriving DecidableEq

/-- The body-keypoint extraction loop (app.py lines 872-881): project the
detector output onto the 17-point MoveNet schema, rescaling normalized
coordinates by the original dimensions, skipping indices past the end of
the detector output. -/
def extractBody (landmarks : List RawLandmark) (ow oh : ℚ) : List Keypoint :=
  (MOVENET_INDICES.zip MOVENET_NAMES).filterMap (fun p =>
    if h : p.1 < landmarks.length then
      let lm := landmarks.get ⟨p.1, h⟩
      some { name := p.2
             x := round1 (lm.x * ow)
             y := round1 (lm.y * oh)
             confidence := roundQ (lm.visibility * 100)
             visible := decide (3/10 < lm.visibility) }
    else none)

/-- Embedding of `max(error_scores.values()) if error_scores else 0` (app.py line 938). -/
def maxVal : List ℚ → ℚ
  | [] => 0
  | v :: vs => vs.foldl max v

/-- The `pose_result` record emitted over the socket (app.py lines
981-990), minus the timing breakdown. -/
structure PoseResultMsg where
  body : List Keypoint
  hands : HandsData
  pose_3d_angles : List (String × ℝ)
  pose_3d_coords : List (String × Coord3)
  sequence : Nat
  mode : String
  tracking_active : Bool

/-- The loop-local state that survives from one iteration to the next: the
`use3D` local variable (unbound while `none`), the global smoother and the
global mistake tracker. -/
structure InferState where
  use3D : Option Bool
  smoother : PoseSmoothing
  tracker : MistakeTracker

/-- Oracle inputs of one iteration: the frame taken from the buffer, the
decode result, the detector outputs (hand extraction, app.py lines
893-917, is modelled by its resulting `{left, right}` lists), the
`tracking_active` flag, the randomized per-joint scores produced by
`mock_pose_comparison`, and the wall clock reading of line 935. -/
structure IterInput where
  frame : FrameData
  decoded : Option DecodedImage
  pose_landmarks : Option (List RawLandmark)
  pose_world : Option (List WorldPoint)
  hands : HandsData
  tracking_active : Bool
  mock_scores : String → ℚ
  now : ℚ

/-- Outcome of one loop iteration: `skip` is the `continue` on a failed
decode (line 840), `emit` is the successful emission (line 981), and
`errorCaught` is the `except` path (line 992) after which no record is
emitted. -/
inductive IterOutcome where
  | skip
  | emit (msg : PoseResultMsg)
  | errorCaught

/-- One iteration of the body of `inference_loop` (app.py lines 827-996),
for a frame already taken from the buffer. -/
noncomputable def iterInference (st : InferState) (input : IterInput) :
    IterOutcome × InferState :=
  match input.decoded with
  | none => (IterOutcome.skip, st)
  | some image =>
      let body_landmarks :=
        match input.pose_landmarks with
        | some lms => extractBody lms (image.width : ℚ) (image.height : ℚ)
        | none => []
      let angles_coords :=
        if input.pose_landmarks.isSome ∧ input.frame.use3D then
          match input.pose_world with
          | some wl => calculate_3d_angles_mediapipe wl
          | none => ([], [])
        else ([], [])
      let sm1 := st.smoother.smooth_body body_landmarks
      let sm2 := sm1.1.smooth_hands input.hands
      let use3Dlocal :=
        if input.pose_landmarks.isSome then some input.frame.use3D else st.use3D
      match use3Dlocal with
      | none =>
          (IterOutcome.errorCaught,
           { use3D := st.use3D, smoother := sm2.1, tracker := st.tracker })
      | some u =>
          if u then
            let sm3 := sm2.1.smooth_3d_angles angles_coords.1
            let sm4 := sm3.1.smooth_3d_coords angles_coords.2
            let tracker :=
              if input.tracking_active then
                let error_scores := sm3.2.map (fun p => (p.1, input.mock_scores p.1))
                let current_time := input.now - st.tracker.session_start_time
                let max_error := maxVal (error_scores.map Prod.snd)
                let frame_to_save : Option Nat :=
                  if 15 < max_error then some image.img else none
                logList st.tracker (error_scores.map (fun p =>
                  { joint_name := p.1
                    error_score := p.2
                    timestamp := current_time
                    sequence := input.frame.sequence
                    frame_image := frame_to_save }))
              else st.tracker
            (IterOutcome.emit
              { body := sm1.2
                hands := sm2.2
                pose_3d_angles := sm3.2
                pose_3d_coords := sm4.2
                sequence := input.frame.sequence
                mode := "3D"
                tracking_active := input.tracking_active },
             { use3D := some u, smoother := sm4.1, tracker := tracker })
          else
            (IterOutcome.emit
              { body := sm1.2
                hands := sm2.2
                pose_3d_angles := []
                pose_3d_coords := []
                sequence := input.frame.sequence
                mode := "2D"
                tracking_active := input.tracking_active },
             { use3D := some u, smoother := sm2.1, tracker := st.tracker })

/-! ## Auxiliary definitions used by the statements and proofs -/

/-- The last `n` elements of a list: the contents of a `maxlen = n` deque
after appending the whole list. -/
def lastN (n : Nat) (l : List ErrorEntry) : List ErrorEntry :=
  l.drop (l.length - n)

/-- The calls among a batch of `log_error` calls that take the major-error
branch (score above the screenshot threshold and a frame image present). -/
def majorFilter (thr : ℚ) (es : List LogArgs) : List LogArgs :=
  es.filter (fun a => decide (thr < a.error_score) && a.frame_image.isSome)

/-- The eight joint names produced by `calculate_3d_angles_mediapipe`
(app.py lines 615-645); these are the only joint names ever passed to
`log_error` by the inference loop. -/
def TRACKED_JOINTS : List String :=
  ["left_elbow", "right_elbow", "left_knee", "right_knee",
   "left_shoulder", "right_shoulder", "left_hip", "right_hip"]

/-- The big-endian decimal digit list of a natural number, with `[0]` for
zero; `natRepr` is its rendering through `Nat.digitChar`. -/
def digitsOf (n : Nat) : List Nat :=
  if n = 0 then [0] else (Nat.digits 10 n).reverse

/-- Boolean test that the first character list is an initial segment of the
second. -/
def initSeg : List Char → List Char → Bool
  | [], _ => true
  | _ :: _, [] => false
  | a :: as, b :: bs => a == b && initSeg as bs

/-!
# Theorems

Helper lemmas come first; the claim theorems (and their witnesses and
counterexamples) follow, one per claim of the specification review.
-/

/-! ### Frame slot helper facts -/

/-- The blend of a keypoint with itself is itself: the EMA weights sum
to one. -/
theorem blendKeypoint_self (α : ℚ) (lm : Keypoint) :
    blendKeypoint α lm lm = lm := by
  cases lm with
  | mk n x y c v =>
      simp only [blendKeypoint, Keypoint.mk.injEq, and_true, true_and]
      constructor <;> ring

/-- Smoothing a body list against itself returns it unchanged. -/
theorem smoothBodyList_self (α : ℚ) (k : List Keypoint) :
    smoothBodyList α k k = k := by
  induction k with
  | nil => rfl
  | cons a t ih => simp [smoothBodyList, blendKeypoint_self, ih]

/-- A fresh smoother passes a non-empty body keypoint list through
unchanged and seeds its prior state with it (app.py lines 684-686). -/
theorem smooth_body_fresh (s : PoseSmoothing) (k : List Keypoint)
    (hfresh : s.smoothed_body = none) (hne : k ≠ []) :
    s.smooth_body k = ({ s with smoothed_body := some k }, k) := by
  unfold PoseSmoothing.smooth_body
  rw [if_neg hne, hfresh]

/-- A smoother whose prior state equals the incoming list returns the list
unchanged and keeps the same prior. -/
theorem smooth_body_const (s : PoseSmoothing) (k : List Keypoint)
    (h : s.smoothed_body = some k) :
    s.smooth_body k = ({ s with smoothed_body := some k }, k) := by
  unfold PoseSmoothing.smooth_body
  by_cases hk : k = []
  · subst hk
    rw [if_pos rfl]
    cases s with
    | mk a sb shl shr sa sc =>
        simp only at h
        rw [h]
  · rw [if_neg hk, h]
    simp [smoothBodyList_self]

/-- With no prior entries, the smoothing loop passes the list through. -/
theorem smoothBodyList_nil (α : ℚ) (lms : List Keypoint) :
    smoothBodyList α lms [] = lms := by
  cases lms <;> rfl

/-- Smoothing preserves the length of the body keypoint list. -/
theorem smoothBodyList_length (α : ℚ) :
    ∀ (lms prevs : List Keypoint),
      (smoothBodyList α lms prevs).length = lms.length
  | lms, [] => by rw [smoothBodyList_nil]
  | [], _ :: _ => rfl
  | _ :: lms, _ :: prevs => by
      simp [smoothBodyList, smoothBodyList_length α lms prevs]

/-- Smoothing keeps each keypoint's name, confidence and visibility
unchanged; only `x` and `y` are blended. -/
theorem smoothBodyList_fields (α : ℚ) :
    ∀ (lms prevs : List Keypoint) (i : Nat)
      (h1 : i < (smoothBodyList α lms prevs).length) (h2 : i < lms.length),
      ((smoothBodyList α lms prevs).get ⟨i, h1⟩).name = (lms.get ⟨i, h2⟩).name ∧
      ((smoothBodyList α lms prevs).get ⟨i, h1⟩).confidence = (lms.get ⟨i, h2⟩).confidence ∧
      ((smoothBodyList α lms prevs).get ⟨i, h1⟩).visible = (lms.get ⟨i, h2⟩).visible
  | lms, [], i, h1, h2 => by
      have h := smoothBodyList_nil α lms
      exact ⟨by rw [List.get_of_eq h], by rw [List.get_of_eq h], by rw [List.get_of_eq h]⟩
  | [], _ :: _, i, h1, h2 => absurd h2 (by simp)
  | lm :: lms, prev :: prevs, 0, h1, h2 => ⟨rfl, rfl, rfl⟩
  | lm :: lms, prev :: prevs, i + 1, h1, h2 =>
      smoothBodyList_fields α lms prevs i
        (by simpa [smoothBodyList] using h1) (by simpa using h2)

/-! ### Claim C1: latest-wins hand-off -/

/-- Claim C1 counterexample: the claim asserts that for ANY slot state, two
`put` calls with no intervening `take` increase the dropped counter by
exactly 1.  Starting from a slot that already holds an undelivered frame
(reached by a single prior `put` on a fresh buffer), the two puts each
discard a pending frame, so the counter increases by 2, not 1. -/
theorem C1_counterexample :
    ((((LatestFrameBuffer.init.put "f0" 0 0 true).put "f1" 1 1 true).put
        "f2" 2 2 true).dropped_count ≠
      (LatestFrameBuffer.init.put "f0" 0 0 true).dropped_count + 1) := by
  decide

/-- Claim C1 (amended): after `put(f1); put(f2)` with no intervening take,
the next take returns exactly `f2` and leaves the slot empty, for every
starting state; and the dropped counter increases by exactly 1 when the
slot was empty before the two puts. -/
theorem C1_latest_wins (b : LatestFrameBuffer)
    (bs1 : String) (t1 : ℚ) (s1 : Nat) (u1 : Bool)
    (bs2 : String) (t2 : ℚ) (s2 : Nat) (u2 : Bool) :
    (((b.put bs1 t1 s1 u1).put bs2 t2 s2 u2).get.1 = some ⟨bs2, t2, s2, u2⟩ ∧
      ((b.put bs1 t1 s1 u1).put bs2 t2 s2 u2).get.2.frame_data = none) ∧
    (b.frame_data = none →
      ((b.put bs1 t1 s1 u1).put bs2 t2 s2 u2).dropped_count =
        b.dropped_count + 1) := by
  refine ⟨⟨rfl, rfl⟩, fun h => ?_⟩
  simp [LatestFrameBuffer.put, h]

/-- Claim C1 witness: the amended statement evaluated on a concrete empty
buffer. -/
theorem C1_latest_wins_witness :
    LatestFrameBuffer.init.frame_data = none ∧
    ((LatestFrameBuffer.init.put "a" 0 0 true).put "b" 1 1 false).dropped_count =
      LatestFrameBuffer.init.dropped_count + 1 :=
  ⟨rfl, (C1_latest_wins LatestFrameBuffer.init "a" 0 0 true "b" 1 1 false).2 rfl⟩

/-! ### Claim C5: smoothing first-frame passthrough -/

/-- Claim C5: the first non-empty body keypoint set processed by a fresh
smoother is returned exactly equal to its input, and the input becomes the
stored prior state for the next cycle (an empty set passes through without
seeding the prior, so the first NON-empty set is the one that seeds). -/
theorem C5_first_frame_passthrough (α : ℚ) (k : List Keypoint) (hne : k ≠ []) :
    (PoseSmoothing.init α).smooth_body k =
      ({ PoseSmoothing.init α with smoothed_body := some k }, k) ∧
    (PoseSmoothing.init α).smooth_body [] = (PoseSmoothing.init α, []) :=
  ⟨smooth_body_fresh _ k rfl hne, rfl⟩

/-- Claim C5 witness: passthrough on a concrete single-keypoint set. -/
theorem C5_witness :
    (([⟨"nose", 1, 2, 90, true⟩] : List Keypoint) ≠ []) ∧
    ((PoseSmoothing.init (7/10)).smooth_body [⟨"nose", 1, 2, 90, true⟩]).2 =
      [⟨"nose", 1, 2, 90, true⟩] ∧
    ((PoseSmoothing.init (7/10)).smooth_body
        [⟨"nose", 1, 2, 90, true⟩]).1.smoothed_body =
      some [⟨"nose", 1, 2, 90, true⟩] := by
  have h := (C5_first_frame_passthrough (7/10) [⟨"nose", 1, 2, 90, true⟩]
    (by decide)).1
  exact ⟨by decide, congrArg Prod.snd h,
    congrArg (fun p => p.1.smoothed_body) h⟩

/-! ### Claim C6: smoothing convergence on constant input -/

/-- Claim C6: feeding the same non-empty keypoint set to a fresh smoother
`n ≥ 1` times in a row yields the set itself as output every time (so in
particular for every `N ≥ 2`): the EMA blend `α·x + (1−α)·x = x` makes the
output of a constant stream exactly the constant, the deviation from the
input being `0` and hence trivially contracted by `(1−α)` at each step. -/
theorem C6_constant_input (α : ℚ) (k : List Keypoint) (hne : k ≠ []) :
    ∀ n, 1 ≤ n →
      (feedBody (PoseSmoothing.init α) k n).2 = k ∧
      (feedBody (PoseSmoothing.init α) k n).1.smoothed_body = some k := by
  intro n hn
  induction n with
  | zero => omega
  | succ m ih =>
      by_cases hm : 1 ≤ m
      · obtain ⟨_, hstate⟩ := ih hm
        have h := smooth_body_const (feedBody (PoseSmoothing.init α) k m).1 k hstate
        refine ⟨?_, ?_⟩
        · show ((feedBody (PoseSmoothing.init α) k m).1.smooth_body k).2 = k
          rw [h]
        · show ((feedBody (PoseSmoothing.init α) k m).1.smooth_body k).1.smoothed_body
            = some k
          rw [h]
      · have hm0 : m = 0 := by omega
        subst hm0
        have h := smooth_body_fresh (PoseSmoothing.init α) k rfl hne
        exact ⟨congrArg Prod.snd h, congrArg (fun p => p.1.smoothed_body) h⟩

/-- Claim C6 witness: three consecutive feeds of a concrete keypoint set
each return the set itself. -/
theorem C6_witness :
    (feedBody (PoseSmoothing.init (7/10)) [⟨"nose", 100, 200, 90, true⟩] 3).2 =
      [⟨"nose", 100, 200, 90, true⟩] :=
  (C6_constant_input (7/10) [⟨"nose", 100, 200, 90, true⟩] (by decide) 3
    (by norm_num)).1

/-! ### Claim C10: body smoothing frame property -/

/-- Claim C10: when the smoother holds a prior body state at least as long
as the input, the smoothed output has the same length as the input and
preserves each keypoint's name, confidence and visibility; only `x` and
`y` are blended. -/
theorem C10_smooth_body_frame (s : PoseSmoothing) (prev lms : List Keypoint)
    (hprev : s.smoothed_body = some prev) (hlen : lms.length ≤ prev.length) :
    ((s.smooth_body lms).2).length = lms.length ∧
    ∀ (i : Nat) (h1 : i < ((s.smooth_body lms).2).length) (h2 : i < lms.length),
      (((s.smooth_body lms).2).get ⟨i, h1⟩).name = (lms.get ⟨i, h2⟩).name ∧
      (((s.smooth_body lms).2).get ⟨i, h1⟩).confidence = (lms.get ⟨i, h2⟩).confidence ∧
      (((s.smooth_body lms).2).get ⟨i, h1⟩).visible = (lms.get ⟨i, h2⟩).visible := by
  by_cases hk : lms = []
  · subst hk
    exact ⟨by simp [PoseSmoothing.smooth_body], fun i h1 h2 => absurd h2 (by simp)⟩
  · have hbody : (s.smooth_body lms).2 = smoothBodyList s.alpha lms prev := by
      unfold PoseSmoothing.smooth_body
      rw [if_neg hk, hprev]
    constructor
    · rw [hbody, smoothBodyList_length]
    · intro i h1 h2
      have h1b : i < (smoothBodyList s.alpha lms prev).length := by
        rwa [hbody] at h1
      refine ⟨?_, ?_, ?_⟩ <;>
        rw [List.get_of_eq hbody] <;>
        exact (smoothBodyList_fields s.alpha lms prev i h1b h2).elim
          (fun ha hb => by first | exact ha | exact hb.1 | exact hb.2)

/-- Claim C10 witness: the length-preservation part evaluated on a
concrete smoother state and input. -/
theorem C10_witness :
    (({ PoseSmoothing.init (7/10) with
          smoothed_body := some [⟨"nose", 0, 0, 80, true⟩] } :
        PoseSmoothing).smooth_body [⟨"nose", 4, 6, 70, false⟩]).2.length =
      ([⟨"nose", 4, 6, 70, false⟩] : List Keypoint).length :=
  (C10_smooth_body_frame _ [⟨"nose", 0, 0, 80, true⟩] [⟨"nose", 4, 6, 70, false⟩]
    rfl (by decide)).1

/-! ### Deque and `log_error` fold lemmas -/

/-- Dropping to the last `n` elements does nothing when the list already
fits. -/
theorem lastN_of_le {n : Nat} {l : List ErrorEntry} (h : l.length ≤ n) :
    lastN n l = l := by
  unfold lastN
  rw [Nat.sub_eq_zero_of_le h, List.drop_zero]

/-- The last `n` elements are at most `n` elements. -/
theorem lastN_length_le (n : Nat) (l : List ErrorEntry) :
    (lastN n l).length ≤ n := by
  unfold lastN
  rw [List.length_drop]
  omega

/-- Appending to a bounded deque keeps the last `cap` elements of the
extended list. -/
theorem dequeAppend_eq_lastN (cap : Nat) (h : List ErrorEntry) (e : ErrorEntry)
    (hle : h.length ≤ cap) (hcap : 0 < cap) :
    dequeAppend cap h e = lastN cap (h ++ [e]) := by
  unfold dequeAppend lastN
  by_cases hl : h.length < cap
  · rw [if_pos hl]
    have hz : (h ++ [e]).length - cap = 0 := by simp; omega
    rw [hz, List.drop_zero]
  · rw [if_neg hl]
    have hlen : h.length = cap := le_antisymm hle (not_lt.mp hl)
    have h1 : (h ++ [e]).length - cap = 1 := by simp; omega
    rw [h1]
    cases h with
    | nil => simp at hlen; omega
    | cons a t => simp

/-- Taking the last `n` elements twice along an append collapses to one
truncation. -/
theorem lastN_append (n : Nat) (l r : List ErrorEntry) :
    lastN n (lastN n l ++ r) = lastN n (l ++ r) := by
  unfold lastN
  rw [← List.drop_append_of_le_length (Nat.sub_le l.length n), List.drop_drop]
  congr 1
  simp [List.length_drop]
  omega

/-- The `error_entry` built by `log_error` only depends on fields that
`log_error` never changes, so logging first does not change later
entries. -/
theorem mkEntry_log_error (t : MistakeTracker) (a' a : LogArgs) :
    mkEntry (t.log_error a') a = mkEntry t a := by
  unfold MistakeTracker.log_error
  split <;> rfl

/-- The history capacity is not changed by `log_error`. -/
theorem log_error_max (t : MistakeTracker) (a : LogArgs) :
    (t.log_error a).max_mistakes = t.max_mistakes := by
  unfold MistakeTracker.log_error
  split <;> rfl

/-- The minimum-error threshold is not changed by `log_error`. -/
theorem log_error_thr (t : MistakeTracker) (a : LogArgs) :
    (t.log_error a).ERROR_THRESHOLD = t.ERROR_THRESHOLD := by
  unfold MistakeTracker.log_error
  split <;> rfl

/-- The screenshot threshold is not changed by `log_error`. -/
theorem log_error_sthr (t : MistakeTracker) (a : LogArgs) :
    (t.log_error a).SCREENSHOT_THRESHOLD = t.SCREENSHOT_THRESHOLD := by
  unfold MistakeTracker.log_error
  split <;> rfl

/-- A qualifying `log_error` appends its entry to the bounded history. -/
theorem log_error_history (t : MistakeTracker) (a : LogArgs)
    (hthr : t.ERROR_THRESHOLD < a.error_score) :
    (t.log_error a).error_history =
      dequeAppend t.max_mistakes t.error_history (mkEntry t a) := by
  unfold MistakeTracker.log_error
  rw [if_pos hthr]

/-- A qualifying `log_error` appends to `major_errors` exactly when the
major branch is taken. -/
theorem log_error_major (t : MistakeTracker) (a : LogArgs)
    (hthr : t.ERROR_THRESHOLD < a.error_score) :
    (t.log_error a).major_errors =
      if t.SCREENSHOT_THRESHOLD < a.error_score ∧ a.frame_image.isSome then
        t.major_errors ++ [mkEntry t a]
      else t.major_errors := by
  unfold MistakeTracker.log_error
  rw [if_pos hthr]

/-- Folding qualifying `log_error` calls keeps exactly the last
`max_mistakes` of all entries ever appended (ring-buffer semantics). -/
theorem logList_history : ∀ (es : List LogArgs) (t : MistakeTracker),
    (∀ a ∈ es, t.ERROR_THRESHOLD < a.error_score) →
    t.error_history.length ≤ t.max_mistakes → 0 < t.max_mistakes →
    (logList t es).error_history =
      lastN t.max_mistakes (t.error_history ++ es.map (mkEntry t))
  | [], t, _, hle, _ => by
      simp only [logList, List.foldl_nil, List.map_nil, List.append_nil]
      exact (lastN_of_le hle).symm
  | a :: es, t, hq, hle, hcap => by
      have hthr : t.ERROR_THRESHOLD < a.error_score := hq a (by simp)
      have hstep : logList t (a :: es) = logList (t.log_error a) es := rfl
      have hq' : ∀ x ∈ es, (t.log_error a).ERROR_THRESHOLD < x.error_score := by
        intro x hx
        rw [log_error_thr]
        exact hq x (by simp [hx])
      have hh : (t.log_error a).error_history =
          lastN t.max_mistakes (t.error_history ++ [mkEntry t a]) := by
        rw [log_error_history t a hthr, dequeAppend_eq_lastN _ _ _ hle hcap]
      have hle' : (t.log_error a).error_history.length ≤ (t.log_error a).max_mistakes := by
        rw [hh, log_error_max]
        exact lastN_length_le _ _
      have ih := logList_history es (t.log_error a) hq' hle'
        (by rw [log_error_max]; exact hcap)
      rw [hstep, ih, log_error_max, hh]
      rw [List.map_congr_left (fun x _ => mkEntry_log_error t a x)]
      rw [lastN_append, List.append_assoc, List.singleton_append, List.map_cons]

/-- Folding qualifying `log_error` calls appends every major entry to
`major_errors`, independent of history eviction. -/
theorem logList_major : ∀ (es : List LogArgs) (t : MistakeTracker),
    (∀ a ∈ es, t.ERROR_THRESHOLD < a.error_score) →
    (logList t es).major_errors =
      t.major_errors ++ (majorFilter t.SCREENSHOT_THRESHOLD es).map (mkEntry t)
  | [], t, _ => by simp [logList, majorFilter]
  | a :: es, t, hq => by
      have hthr : t.ERROR_THRESHOLD < a.error_score := hq a (by simp)
      have hstep : logList t (a :: es) = logList (t.log_error a) es := rfl
      have hq' : ∀ x ∈ es, (t.log_error a).ERROR_THRESHOLD < x.error_score := by
        intro x hx
        rw [log_error_thr]
        exact hq x (by simp [hx])
      have ih := logList_major es (t.log_error a) hq'
      rw [hstep, ih, log_error_sthr]
      rw [List.map_congr_left (fun x _ => mkEntry_log_error t a x)]
      rw [log_error_major t a hthr]
      unfold majorFilter
      by_cases hmaj : t.SCREENSHOT_THRESHOLD < a.error_score ∧ a.frame_image.isSome
      · rw [if_pos hmaj, List.filter_cons_of_pos (by simp [hmaj.1, hmaj.2])]
        simp [List.append_assoc]
      · rw [if_neg hmaj, List.filter_cons_of_neg (by simpa using hmaj)]

/-! ### Claim C2: history bounding -/

/-- Claim C2: logging 1001 qualifying errors (each above the 5-degree
threshold) into a fresh tracker of capacity 1000 leaves exactly 1000
history entries, the evicted entry being exactly the oldest (the history
equals the entries of all 1001 calls minus the first), while the
major-errors list receives every major entry regardless of eviction and is
not bounded by the capacity. -/
theorem C2_history_bounding (sid : String) (start : ℚ) (es : List LogArgs)
    (hlen : es.length = 1001)
    (hq : ∀ a ∈ es, (5 : ℚ) < a.error_score) :
    (logList (initialTracker 1000 sid start) es).error_history.length = 1000 ∧
    (logList (initialTracker 1000 sid start) es).error_history =
      (es.map (mkEntry (initialTracker 1000 sid start))).drop 1 ∧
    (logList (initialTracker 1000 sid start) es).major_errors =
      (majorFilter 15 es).map (mkEntry (initialTracker 1000 sid start)) := by
  have hist := logList_history es (initialTracker 1000 sid start) hq
    (by simp [initialTracker]) (by norm_num [initialTracker])
  have h2 : (logList (initialTracker 1000 sid start) es).error_history =
      (es.map (mkEntry (initialTracker 1000 sid start))).drop 1 := by
    rw [hist]
    show lastN (initialTracker 1000 sid start).max_mistakes
        ((initialTracker 1000 sid start).error_history ++ _) = _
    unfold lastN
    simp [initialTracker, hlen]
  refine ⟨?_, h2, ?_⟩
  · rw [h2, List.length_drop, List.length_map, hlen]
  · have hm := logList_major es (initialTracker 1000 sid start) hq
    simpa [initialTracker] using hm

/-- Claim C2 witness: 1001 concrete major errors of 20 degrees; the
history holds 1000 entries while the major list holds all 1001. -/
theorem C2_witness :
    ((List.range 1001).map (fun (j : Nat) =>
        (⟨"left_elbow", 20, (j : ℚ), j, some 0⟩ : LogArgs))).length = 1001 ∧
    (logList (initialTracker 1000 "20240101_120000" 0)
        ((List.range 1001).map (fun (j : Nat) =>
          (⟨"left_elbow", 20, (j : ℚ), j, some 0⟩ : LogArgs)))).error_history.length
      = 1000 ∧
    (logList (initialTracker 1000 "20240101_120000" 0)
        ((List.range 1001).map (fun (j : Nat) =>
          (⟨"left_elbow", 20, (j : ℚ), j, some 0⟩ : LogArgs)))).major_errors.length
      = 1001 := by
  have hq : ∀ a ∈ (List.range 1001).map (fun (j : Nat) =>
      (⟨"left_elbow", 20, (j : ℚ), j, some 0⟩ : LogArgs)), (5 : ℚ) < a.error_score := by
    intro a ha
    simp only [List.mem_map] at ha
    obtain ⟨j, _, rfl⟩ := ha
    norm_num
  have h := C2_history_bounding "20240101_120000" 0 _ (by simp) hq
  refine ⟨by simp, h.1, ?_⟩
  rw [h.2.2]
  have hall : majorFilter 15 ((List.range 1001).map (fun (j : Nat) =>
      (⟨"left_elbow", 20, (j : ℚ), j, some 0⟩ : LogArgs))) =
      (List.range 1001).map (fun (j : Nat) =>
        (⟨"left_elbow", 20, (j : ℚ), j, some 0⟩ : LogArgs)) := by
    unfold majorFilter
    rw [List.filter_eq_self]
    intro a ha
    simp only [List.mem_map] at ha
    obtain ⟨j, _, rfl⟩ := ha
    norm_num
  rw [hall]
  simp

/-! ### Rounding evaluation lemmas -/

/-- Banker's rounding of an integer is the integer. -/
theorem roundHalfEvenQ_intCast (z : ℤ) : roundHalfEvenQ (z : ℚ) = z := by
  unfold roundHalfEvenQ
  rw [Int.floor_intCast]
  norm_num

/-- Rounding an integer to one decimal is the identity. -/
theorem round1_intCast (z : ℤ) : round1 (z : ℚ) = (z : ℚ) := by
  unfold round1
  rw [show ((z : ℚ) * 10) = ((z * 10 : ℤ) : ℚ) by push_cast; ring,
    roundHalfEvenQ_intCast]
  push_cast
  ring

/-- Rounding an integer to two decimals is the identity. -/
theorem round2_intCast (z : ℤ) : round2 (z : ℚ) = (z : ℚ) := by
  unfold round2
  rw [show ((z : ℚ) * 100) = ((z * 100 : ℤ) : ℚ) by push_cast; ring,
    roundHalfEvenQ_intCast]
  push_cast
  ring

/-! ### Claim C3: report determinism -/

/-- Claim C3 counterexample: the claim asserts that two `report()` calls
with no intervening writes yield identical output and that the report is a
function of the history alone.  The report embeds
`time.time() - session_start_time` (app.py line 134), so two calls of the
same (freshly constructed, hence reachable) tracker at wall-clock instants
0 and 1 differ in their duration field. -/
theorem C3_counterexample :
    (initialTracker 1000 "20240101_120000" 0).get_comprehensive_report 0 ≠
      (initialTracker 1000 "20240101_120000" 0).get_comprehensive_report 1 := by
  intro h
  have hd := congrArg (fun r => r.session_summary.duration_seconds) h
  simp only [MistakeTracker.get_comprehensive_report, initialTracker,
    if_pos rfl] at hd
  rw [sub_zero, sub_zero,
    show (0 : ℚ) = ((0 : ℤ) : ℚ) by norm_num,
    show (1 : ℚ) = ((1 : ℤ) : ℚ) by norm_num,
    round1_intCast, round1_intCast] at hd
  norm_num at hd

/-- Claim C3 (amended): two `report()` calls with no intervening writes
agree on every field except the wall-clock-derived session-duration fields
(`duration_seconds` and `duration_formatted`); all other fields are a
deterministic function of the tracker state. -/
theorem C3_report_determinism (t : MistakeTracker) (now₁ now₂ : ℚ) :
    (t.get_comprehensive_report now₁).session_summary.session_id =
      (t.get_comprehensive_report now₂).session_summary.session_id ∧
    (t.get_comprehensive_report now₁).session_summary.total_errors =
      (t.get_comprehensive_report now₂).session_summary.total_errors ∧
    (t.get_comprehensive_report now₁).session_summary.major_errors =
      (t.get_comprehensive_report now₂).session_summary.major_errors ∧
    (t.get_comprehensive_report now₁).session_summary.average_error_degrees =
      (t.get_comprehensive_report now₂).session_summary.average_error_degrees ∧
    (t.get_comprehensive_report now₁).session_summary.performance_grade =
      (t.get_comprehensive_report now₂).session_summary.performance_grade ∧
    (t.get_comprehensive_report now₁).frequent_mistakes =
      (t.get_comprehensive_report now₂).frequent_mistakes ∧
    (t.get_comprehensive_report now₁).worst_moments =
      (t.get_comprehensive_report now₂).worst_moments ∧
    (t.get_comprehensive_report now₁).improvement_plan =
      (t.get_comprehensive_report now₂).improvement_plan ∧
    (t.get_comprehensive_report now₁).screenshot_directory =
      (t.get_comprehensive_report now₂).screenshot_directory := by
  unfold MistakeTracker.get_comprehensive_report
  by_cases h : t.error_history = [] <;> simp [h]

/-! ### Claim C4: frequent-mistakes section -/

/-- The non-empty branch of the report builds the frequent-mistakes section
by stably sorting the per-joint counters descending, truncating to ten and
attaching the percentage `round(count / len(error_history) * 100, 1)`. -/
theorem report_frequent_eq (t : MistakeTracker) (now : ℚ)
    (hne : t.error_history ≠ []) :
    (t.get_comprehensive_report now).frequent_mistakes =
      ((pySortDesc Prod.snd t.error_counts).take 10).map (fun p =>
        { joint := p.1, count := p.2,
          percentage :=
            round1 ((p.2 : ℚ) / (t.error_history.length : ℚ) * 100) }) := by
  unfold MistakeTracker.get_comprehensive_report
  rw [if_neg hne]

/-- A qualifying, non-major `log_error` call in explicit form. -/
theorem log_error_eval (t : MistakeTracker) (a : LogArgs)
    (hthr : t.ERROR_THRESHOLD < a.error_score)
    (hnm : ¬(t.SCREENSHOT_THRESHOLD < a.error_score ∧ a.frame_image.isSome)) :
    t.log_error a =
      { t with
        error_history := dequeAppend t.max_mistakes t.error_history (mkEntry t a)
        error_counts := bumpCount t.error_counts a.joint_name } := by
  unfold MistakeTracker.log_error
  rw [if_pos hthr]
  simp only [if_neg hnm]

/-- Claim C4 counterexample: the claim asserts each listed joint carries a
percentage equal to `100 * count / (total logged errors)`, also after ring
eviction.  Logging 2 qualifying `left_elbow` errors into a capacity-1
tracker (the first entry evicted), `left_elbow` has all-time count 2 and
total logged 2, so the claim demands `100 * 2 / 2 = 100`; the code reports
`round(2 / len(history) * 100, 1) = 200` because it divides by the capped
current history length 1, not by the number of logged errors. -/
theorem C4_counterexample :
    ((logList (initialTracker 1 "s" 0)
        [⟨"left_elbow", 10, 0, 0, none⟩,
         ⟨"left_elbow", 10, 1, 1, none⟩]).get_comprehensive_report
          0).frequent_mistakes.head? =
      some ⟨"left_elbow", 2, 200⟩ ∧ (200 : ℚ) ≠ 100 * 2 / 2 := by
  have h1 : (initialTracker 1 "s" 0).log_error ⟨"left_elbow", 10, 0, 0, none⟩ =
      { initialTracker 1 "s" 0 with
        error_history := [mkEntry (initialTracker 1 "s" 0) ⟨"left_elbow", 10, 0, 0, none⟩]
        error_counts := [("left_elbow", 1)] } := by
    rw [log_error_eval _ _ (by norm_num [initialTracker]) (by norm_num [initialTracker])]
    simp [initialTracker, dequeAppend, bumpCount]
  have hfold : logList (initialTracker 1 "s" 0)
      [⟨"left_elbow", 10, 0, 0, none⟩, ⟨"left_elbow", 10, 1, 1, none⟩] =
      ((initialTracker 1 "s" 0).log_error
        ⟨"left_elbow", 10, 0, 0, none⟩).log_error
          ⟨"left_elbow", 10, 1, 1, none⟩ := rfl
  have h2 : logList (initialTracker 1 "s" 0)
      [⟨"left_elbow", 10, 0, 0, none⟩, ⟨"left_elbow", 10, 1, 1, none⟩] =
      { initialTracker 1 "s" 0 with
        error_history := [mkEntry (initialTracker 1 "s" 0) ⟨"left_elbow", 10, 1, 1, none⟩]
        error_counts := [("left_elbow", 2)] } := by
    rw [hfold, h1]
    rw [log_error_eval _ _ (by norm_num [initialTracker]) (by norm_num [initialTracker])]
    simp [initialTracker, dequeAppend, bumpCount, mkEntry]
  constructor
  · rw [h2]
    rw [report_frequent_eq _ 0 (by simp)]
    simp only [pySortDesc, List.insertionSort, List.orderedInsert, List.take,
      List.map, List.head?_cons, initialTracker]
    simp only [List.length_cons, List.length_nil]
    rw [show ((2 : Nat) : ℚ) / ((1 : Nat) : ℚ) * 100 = ((200 : ℤ) : ℚ) by push_cast; norm_num,
      round1_intCast]
    norm_num
  · norm_num

/-- Claim C4 (amended): for every tracker state with at least one logged
error, the frequent-mistakes section is exactly the first ten entries of
the stable descending sort of the all-time per-joint counters — the TOP
ten joints by occurrence count, so that every joint left out has a count
no greater than every listed count — listing at most ten joints (exactly
`min 10` the number of distinct joints), ranked by count descending, each
carrying `round(count / len(error_history) * 100, 1)`: the denominator is
the CURRENT history length (capped at the capacity when entries were
evicted), not the total number of logged errors. -/
theorem C4_frequent_mistakes (t : MistakeTracker) (now : ℚ)
    (hne : t.error_history ≠ []) :
    ((t.get_comprehensive_report now).frequent_mistakes).length =
      min 10 t.error_counts.length ∧
    List.Pairwise (fun a b => b.count ≤ a.count)
      ((t.get_comprehensive_report now).frequent_mistakes) ∧
    (∀ e ∈ (t.get_comprehensive_report now).frequent_mistakes,
      (e.joint, e.count) ∈ t.error_counts ∧
      e.percentage =
        round1 ((e.count : ℚ) / (t.error_history.length : ℚ) * 100)) ∧
    (t.get_comprehensive_report now).frequent_mistakes =
      ((pySortDesc Prod.snd t.error_counts).take 10).map (fun p =>
        { joint := p.1, count := p.2,
          percentage :=
            round1 ((p.2 : ℚ) / (t.error_history.length : ℚ) * 100) }) ∧
    ∀ p ∈ t.error_counts,
      p ∉ ((t.get_comprehensive_report now).frequent_mistakes).map
        (fun e => (e.joint, e.count)) →
      ∀ e ∈ (t.get_comprehensive_report now).frequent_mistakes,
        p.2 ≤ e.count := by
  rw [report_frequent_eq t now hne]
  have hperm : (pySortDesc Prod.snd t.error_counts).Perm t.error_counts :=
    List.perm_insertionSort _ _
  have hsorted : List.Pairwise (fun (a b : String × Nat) => b.2 ≤ a.2)
      (pySortDesc Prod.snd t.error_counts) := by
    haveI : IsTotal (String × Nat) (fun a b => b.2 ≤ a.2) :=
      ⟨fun a b => (Nat.le_total b.2 a.2)⟩
    haveI : IsTrans (String × Nat) (fun a b => b.2 ≤ a.2) :=
      ⟨fun _ _ _ hab hbc => le_trans hbc hab⟩
    exact List.sorted_insertionSort _ _
  refine ⟨?_, ?_, ?_, rfl, ?_⟩
  · rw [List.length_map, List.length_take, hperm.length_eq]
  · have htake := List.Pairwise.sublist (List.take_sublist 10 _) hsorted
    rw [List.pairwise_map]
    exact htake
  · intro e he
    obtain ⟨p, hp, rfl⟩ := List.mem_map.mp he
    have hmem : p ∈ t.error_counts :=
      hperm.mem_iff.mp (List.mem_of_mem_take hp)
    exact ⟨hmem, rfl⟩
  · intro p hp hnot e he
    obtain ⟨q, hq, rfl⟩ := List.mem_map.mp he
    have hpairs :
        (((pySortDesc Prod.snd t.error_counts).take 10).map (fun p =>
          ({ joint := p.1, count := p.2,
             percentage :=
               round1 ((p.2 : ℚ) / (t.error_history.length : ℚ) * 100) }
            : FrequentEntry))).map (fun e => (e.joint, e.count)) =
        (pySortDesc Prod.snd t.error_counts).take 10 := by
      rw [List.map_map]
      exact List.map_id _
    rw [hpairs] at hnot
    have hpS : p ∈ (pySortDesc Prod.snd t.error_counts).take 10 ++
        (pySortDesc Prod.snd t.error_counts).drop 10 := by
      rw [List.take_append_drop]
      exact hperm.mem_iff.mpr hp
    have hdrop : p ∈ (pySortDesc Prod.snd t.error_counts).drop 10 := by
      rcases List.mem_append.mp hpS with h | h
      · exact absurd h hnot
      · exact h
    have happ : List.Pairwise (fun (a b : String × Nat) => b.2 ≤ a.2)
        ((pySortDesc Prod.snd t.error_counts).take 10 ++
          (pySortDesc Prod.snd t.error_counts).drop 10) := by
      rw [List.take_append_drop]
      exact hsorted
    exact (List.pairwise_append.mp happ).2.2 q hq p hdrop

/-- Claim C4 witness: the amended statement evaluated on a concrete
one-error tracker. -/
theorem C4_witness :
    (logList (initialTracker 1000 "s" 0)
        [⟨"left_elbow", 10, 0, 0, none⟩]).error_history ≠ [] ∧
    (((logList (initialTracker 1000 "s" 0)
        [⟨"left_elbow", 10, 0, 0, none⟩]).get_comprehensive_report
          0).frequent_mistakes).length =
      min 10 (logList (initialTracker 1000 "s" 0)
        [⟨"left_elbow", 10, 0, 0, none⟩]).error_counts.length := by
  have hfold : logList (initialTracker 1000 "s" 0)
      [⟨"left_elbow", 10, 0, 0, none⟩] =
      (initialTracker 1000 "s" 0).log_error ⟨"left_elbow", 10, 0, 0, none⟩ := rfl
  have hne : (logList (initialTracker 1000 "s" 0)
      [⟨"left_elbow", 10, 0, 0, none⟩]).error_history ≠ [] := by
    rw [hfold,
      log_error_eval _ _ (by norm_num [initialTracker]) (by norm_num [initialTracker])]
    simp [initialTracker, dequeAppend]
  exact ⟨hne, (C4_frequent_mistakes _ 0 hne).1⟩

/-! ### Vector space facts for the 3-D angle calculator -/

/-- The dot product of a vector with itself is nonnegative. -/
theorem dot3_self_nonneg (a : Vec3) : 0 ≤ dot3 a a :=
  add_nonneg (add_nonneg (mul_self_nonneg a.x) (mul_self_nonneg a.y))
    (mul_self_nonneg a.z)

/-- The norm squares back to the self dot product. -/
theorem norm3_mul_self (a : Vec3) : norm3 a * norm3 a = dot3 a a :=
  Real.mul_self_sqrt (dot3_self_nonneg a)

/-- The norm is nonnegative. -/
theorem norm3_nonneg (a : Vec3) : 0 ≤ norm3 a := Real.sqrt_nonneg _

/-- Bilinearity of the dot product under scaling. -/
theorem dot3_smul_smul (c d : ℝ) (a b : Vec3) :
    dot3 (smul3 c a) (smul3 d b) = c * d * dot3 a b := by
  unfold dot3 smul3
  ring

/-- Composition of scalings. -/
theorem smul3_smul3 (c d : ℝ) (a : Vec3) :
    smul3 c (smul3 d a) = smul3 (c * d) a := by
  unfold smul3
  simp only [Vec3.mk.injEq]
  refine ⟨by ring, by ring, by ring⟩

/-- The norm scales by the absolute value of the factor. -/
theorem norm3_smul (c : ℝ) (a : Vec3) : norm3 (smul3 c a) = |c| * norm3 a := by
  unfold norm3
  rw [show dot3 (smul3 c a) (smul3 c a) = c ^ 2 * dot3 a a by unfold dot3 smul3; ring,
    Real.sqrt_mul (sq_nonneg c), Real.sqrt_sq_eq_abs]

/-- Banker's rounding of an integer real is the integer. -/
theorem roundHalfEvenR_intCast (z : ℤ) : roundHalfEvenR (z : ℝ) = z := by
  unfold roundHalfEvenR
  rw [Int.floor_intCast]
  norm_num

/-- Rounding an integer real to one decimal is the identity. -/
theorem round1R_intCast (z : ℤ) : round1R (z : ℝ) = (z : ℝ) := by
  unfold round1R
  rw [show ((z : ℝ) * 10) = ((z * 10 : ℤ) : ℝ) by push_cast; ring,
    roundHalfEvenR_intCast]
  push_cast
  ring

/-! ### Claim C7: angle calculation boundaries -/

/-- Claim C7: the 3-D angle function yields 180 degrees for colinear points
with `p2` strictly between `p1` and `p3` (outside the degenerate guard),
0 degrees whenever `p1 = p3`, 0 without a domain error whenever either
vector is shorter than the `1e-6` epsilon, and its cosine is clamped to
`[-1, 1]` in all cases. -/
theorem C7_angle_boundaries :
    (∀ (p1 p2 p3 : WorldPoint) (u : ℝ), 0 < u → u < 1 →
      p2 = ⟨p1.x + u * (p3.x - p1.x), p1.y + u * (p3.y - p1.y),
            p1.z + u * (p3.z - p1.z)⟩ →
      ¬ norm3 (vsub p1 p2) < 1/1000000 → ¬ norm3 (vsub p3 p2) < 1/1000000 →
      calculate_angle_3d p1 p2 p3 = 180) ∧
    (∀ p1 p2 p3 : WorldPoint, p1 = p3 → calculate_angle_3d p1 p2 p3 = 0) ∧
    (∀ p1 p2 p3 : WorldPoint,
      norm3 (vsub p1 p2) < 1/1000000 ∨ norm3 (vsub p3 p2) < 1/1000000 →
      calculate_angle_3d p1 p2 p3 = 0) ∧
    (∀ x : ℝ, -1 ≤ clip x (-1) 1 ∧ clip x (-1) 1 ≤ 1) := by
  have hdeg : ∀ p1 p2 p3 : WorldPoint,
      norm3 (vsub p1 p2) < 1/1000000 ∨ norm3 (vsub p3 p2) < 1/1000000 →
      calculate_angle_3d p1 p2 p3 = 0 := by
    intro p1 p2 p3 h
    unfold calculate_angle_3d
    rw [if_pos h]
  refine ⟨?_, ?_, hdeg, ?_⟩
  · -- colinear, strictly between: the normalized dot product is exactly -1
    intro p1 p2 p3 u hu hu1 hp2 hn1 hn2
    have hv1 : vsub p1 p2 = smul3 (-u) (vsub p3 p1) := by
      rw [hp2]
      unfold vsub smul3
      simp only [Vec3.mk.injEq]
      refine ⟨by ring, by ring, by ring⟩
    have hv2 : vsub p3 p2 = smul3 (1 - u) (vsub p3 p1) := by
      rw [hp2]
      unfold vsub smul3
      simp only [Vec3.mk.injEq]
      refine ⟨by ring, by ring, by ring⟩
    have hu1' : 0 < 1 - u := by linarith
    have hnv1 : norm3 (vsub p1 p2) = u * norm3 (vsub p3 p1) := by
      rw [hv1, norm3_smul, abs_neg, abs_of_pos hu]
    have hnd : 0 < norm3 (vsub p3 p1) := by
      rcases lt_or_eq_of_le (norm3_nonneg (vsub p3 p1)) with h | h
      · exact h
      · exfalso
        apply hn1
        rw [hnv1, ← h, mul_zero]
        norm_num
    have hnv2 : norm3 (vsub p3 p2) = (1 - u) * norm3 (vsub p3 p1) := by
      rw [hv2, norm3_smul, abs_of_pos hu1']
    unfold calculate_angle_3d
    rw [if_neg (not_or.mpr ⟨hn1, hn2⟩)]
    have hdot : dot3 (smul3 (1 / norm3 (vsub p1 p2)) (vsub p1 p2))
        (smul3 (1 / norm3 (vsub p3 p2)) (vsub p3 p2)) = -1 := by
      rw [hnv1, hnv2, hv1, hv2]
      rw [smul3_smul3, smul3_smul3, dot3_smul_smul, ← norm3_mul_self]
      have h1 : u * norm3 (vsub p3 p1) ≠ 0 := by positivity
      have h2 : (1 - u) * norm3 (vsub p3 p1) ≠ 0 := by positivity
      field_simp
      ring
    rw [hdot]
    have hclip : clip (-1) (-1) 1 = -1 := by
      unfold clip
      rw [max_self, min_eq_left (by norm_num : (-1 : ℝ) ≤ 1)]
    rw [hclip, Real.arccos_neg_one,
      show Real.pi * (180 / Real.pi) = 180 by
        field_simp,
      show (180 : ℝ) = ((180 : ℤ) : ℝ) by norm_num, round1R_intCast]
  · -- identical endpoints: the normalized dot product is exactly 1
    intro p1 p2 p3 h13
    subst h13
    by_cases hdeg1 : norm3 (vsub p1 p2) < 1/1000000
    · exact hdeg p1 p2 p1 (Or.inl hdeg1)
    · have hn : 0 < norm3 (vsub p1 p2) := by
        have := not_lt.mp hdeg1
        linarith
      unfold calculate_angle_3d
      rw [if_neg (not_or.mpr ⟨hdeg1, hdeg1⟩)]
      have hdot : dot3 (smul3 (1 / norm3 (vsub p1 p2)) (vsub p1 p2))
          (smul3 (1 / norm3 (vsub p1 p2)) (vsub p1 p2)) = 1 := by
        rw [dot3_smul_smul, ← norm3_mul_self]
        field_simp
      rw [hdot]
      have hclip : clip 1 (-1) 1 = 1 := by
        unfold clip
        rw [max_eq_left (by norm_num : (-1 : ℝ) ≤ 1), min_self]
      rw [hclip, Real.arccos_one, zero_mul,
        show (0 : ℝ) = ((0 : ℤ) : ℝ) by norm_num, round1R_intCast]
  · -- the clip bounds
    intro x
    unfold clip
    exact ⟨le_min (le_max_right x (-1)) (by norm_num), min_le_right _ _⟩

/-- Claim C7 witness: a concrete straight-line configuration evaluates to
180 degrees. -/
theorem C7_witness :
    calculate_angle_3d ⟨1, 0, 0⟩ ⟨0, 0, 0⟩ ⟨-1, 0, 0⟩ = 180 := by
  have hn1 : norm3 (vsub ⟨1, 0, 0⟩ ⟨0, 0, 0⟩) = 1 := by
    unfold norm3 dot3 vsub
    rw [show ((1 : ℝ) - 0) * (1 - 0) + (0 - 0) * (0 - 0) + (0 - 0) * (0 - 0)
        = 1 by ring, Real.sqrt_one]
  have hn2 : norm3 (vsub ⟨-1, 0, 0⟩ ⟨0, 0, 0⟩) = 1 := by
    unfold norm3 dot3 vsub
    rw [show ((-1 : ℝ) - 0) * (-1 - 0) + (0 - 0) * (0 - 0) + (0 - 0) * (0 - 0)
        = 1 by ring, Real.sqrt_one]
  exact C7_angle_boundaries.1 ⟨1, 0, 0⟩ ⟨0, 0, 0⟩ ⟨-1, 0, 0⟩ (1/2)
    (by norm_num) (by norm_num)
    (by simp only [WorldPoint.mk.injEq]; norm_num)
    (by rw [hn1]; norm_num) (by rw [hn2]; norm_num)

/-! ### Decimal rendering facts -/

/-- The rendering of every digit below ten is an ASCII digit. -/
theorem digitChar_isDigit : ∀ d < 10, (Nat.digitChar d).isDigit = true := by
  decide

/-- Digit rendering is injective below ten. -/
theorem digitChar_inj10 :
    ∀ a < 10, ∀ b < 10, Nat.digitChar a = Nat.digitChar b → a = b := by
  decide

/-- Every entry of `digitsOf` is a digit. -/
theorem digitsOf_lt (n : Nat) : ∀ d ∈ digitsOf n, d < 10 := by
  unfold digitsOf
  split
  · intro d hd
    simp only [List.mem_singleton] at hd
    omega
  · intro d hd
    rw [List.mem_reverse] at hd
    exact Nat.digits_lt_base (by norm_num) hd

/-- The decimal rendering in terms of `digitsOf`. -/
theorem natRepr_eq (n : Nat) :
    natRepr n = ⟨(digitsOf n).map Nat.digitChar⟩ := by
  unfold natRepr digitsOf
  split
  · rfl
  · rfl

/-- Every character of a rendered natural number is an ASCII digit. -/
theorem natRepr_digits (n : Nat) : ∀ c ∈ (natRepr n).data, c.isDigit = true := by
  rw [natRepr_eq]
  intro c hc
  obtain ⟨d, hd, rfl⟩ := List.mem_map.mp hc
  exact digitChar_isDigit d (digitsOf_lt n d hd)

/-- Digit lists below ten are determined by their renderings. -/
theorem map_digitChar_inj : ∀ (l₁ l₂ : List Nat),
    (∀ d ∈ l₁, d < 10) → (∀ d ∈ l₂, d < 10) →
    l₁.map Nat.digitChar = l₂.map Nat.digitChar → l₁ = l₂
  | [], [], _, _, _ => rfl
  | [], _ :: _, _, _, h => by simp at h
  | _ :: _, [], _, _, h => by simp at h
  | a :: as, b :: bs, h1, h2, h => by
      injection h with hh ht
      have hab : a = b :=
        digitChar_inj10 a (h1 a (by simp)) b (h2 b (by simp)) hh
      have htl := map_digitChar_inj as bs
        (fun d hd => h1 d (by simp [hd])) (fun d hd => h2 d (by simp [hd])) ht
      rw [hab, htl]

/-- The digit list of a natural number determines it. -/
theorem digitsOf_inj {m n : Nat} (h : digitsOf m = digitsOf n) : m = n := by
  unfold digitsOf at h
  by_cases hm : m = 0 <;> by_cases hn : n = 0
  · rw [hm, hn]
  · rw [if_pos hm, if_neg hn] at h
    have hd : Nat.digits 10 n = [0] := by
      have := congrArg List.reverse h
      simpa using this.symm
    have := congrArg (Nat.ofDigits 10) hd
    rw [Nat.ofDigits_digits] at this
    simp [Nat.ofDigits_cons, Nat.ofDigits_nil] at this
    exact absurd this hn
  · rw [if_neg hm, if_pos hn] at h
    have hd : Nat.digits 10 m = [0] := by
      have := congrArg List.reverse h
      simpa using this
    have := congrArg (Nat.ofDigits 10) hd
    rw [Nat.ofDigits_digits] at this
    simp [Nat.ofDigits_cons, Nat.ofDigits_nil] at this
    exact absurd this hm
  · rw [if_neg hm, if_neg hn] at h
    have hd := congrArg List.reverse h
    rw [List.reverse_reverse, List.reverse_reverse] at hd
    have := congrArg (Nat.ofDigits 10) hd
    rwa [Nat.ofDigits_digits, Nat.ofDigits_digits] at this

/-- Decimal rendering of natural numbers is injective. -/
theorem natRepr_inj {m n : Nat} (h : natRepr m = natRepr n) : m = n := by
  rw [natRepr_eq, natRepr_eq] at h
  exact digitsOf_inj (map_digitChar_inj _ _ (digitsOf_lt m) (digitsOf_lt n)
    (congrArg String.data h))

/-! ### Character list splitting facts -/

/-- Splitting equal concatenations at the first non-digit character: if two
digit blocks are followed by non-digit characters, equality of the
concatenations forces the blocks, the separators and the tails to agree. -/
theorem digits_split : ∀ (a₁ a₂ t₁ t₂ : List Char) (c₁ c₂ : Char),
    (∀ x ∈ a₁, x.isDigit = true) → (∀ x ∈ a₂, x.isDigit = true) →
    c₁.isDigit = false → c₂.isDigit = false →
    a₁ ++ c₁ :: t₁ = a₂ ++ c₂ :: t₂ → a₁ = a₂ ∧ c₁ = c₂ ∧ t₁ = t₂
  | [], [], t₁, t₂, c₁, c₂, _, _, _, _, h => by
      injection h with h1 h2
      exact ⟨rfl, h1, h2⟩
  | [], y :: ys, t₁, t₂, c₁, c₂, _, h2, hc1, _, h => by
      injection h with ha _
      have hy := h2 y (by simp)
      rw [← ha, hc1] at hy
      exact absurd hy (by simp)
  | x :: xs, [], t₁, t₂, c₁, c₂, h1, _, _, hc2, h => by
      injection h with ha _
      have hx := h1 x (by simp)
      rw [ha, hc2] at hx
      exact absurd hx (by simp)
  | x :: xs, y :: ys, t₁, t₂, c₁, c₂, h1, h2, hc1, hc2, h => by
      injection h with ha hb
      obtain ⟨hxs, hc, ht⟩ := digits_split xs ys t₁ t₂ c₁ c₂
        (fun z hz => h1 z (by simp [hz])) (fun z hz => h2 z (by simp [hz]))
        hc1 hc2 hb
      exact ⟨by rw [ha, hxs], hc, ht⟩

/-- Two lists with equal concatenations are comparable as initial
segments. -/
theorem append_eq_initSeg : ∀ (a b t₁ t₂ : List Char),
    a ++ t₁ = b ++ t₂ → initSeg a b = true ∨ initSeg b a = true
  | [], _, _, _, _ => Or.inl rfl
  | _ :: _, [], _, _, _ => Or.inr rfl
  | a :: as, b :: bs, t₁, t₂, h => by
      injection h with ha hb
      rcases append_eq_initSeg as bs t₁ t₂ hb with hr | hr
      · left
        simp [initSeg, ha, hr]
      · right
        simp [initSeg, ha, hr]

/-- No two distinct tracked joint names are initial segments of each
other. -/
theorem tracked_nonprefix :
    ∀ j₁ ∈ TRACKED_JOINTS, ∀ j₂ ∈ TRACKED_JOINTS,
      j₁ = j₂ ∨ (initSeg j₁.data j₂.data = false ∧
        initSeg j₂.data j₁.data = false) := by
  decide

/-! ### Claim C8: screenshot artifact naming -/

/-- Claim C8 counterexample: the claim asserts the artifact name is an
injective function of (session id, frame sequence, joint, magnitude).  The
file name renders `int(error_score)` (app.py line 89), so the distinct
magnitudes 16.2 and 16.7 (both above the screenshot threshold) produce the
same name for the same session, frame and joint. -/
theorem C8_counterexample :
    screenshotFilename "20240101_120000" 7 "left_elbow" (81/5) =
      screenshotFilename "20240101_120000" 7 "left_elbow" (83/5) ∧
    (81/5 : ℚ) ≠ 83/5 := by
  constructor
  · unfold screenshotFilename
    rw [show ⌊(81/5 : ℚ)⌋ = 16 by norm_num [Int.floor_eq_iff],
      show ⌊(83/5 : ℚ)⌋ = 16 by norm_num [Int.floor_eq_iff]]
  · norm_num

/-- Claim C8 (amended): the artifact file name is an injective function of
(session id, frame sequence, joint, INTEGER-TRUNCATED magnitude), for
session ids of equal length (the `%Y%m%d_%H%M%S` format is always 15
characters) and the eight joint names the inference loop tracks: equal
names force equal components. -/
theorem C8_filename_uniqueness (sid₁ sid₂ : String) (seq₁ seq₂ : Nat)
    (j₁ j₂ : String) (m₁ m₂ : ℚ)
    (hlen : sid₁.length = sid₂.length)
    (hj₁ : j₁ ∈ TRACKED_JOINTS) (hj₂ : j₂ ∈ TRACKED_JOINTS)
    (heq : screenshotFilename sid₁ seq₁ j₁ m₁ =
      screenshotFilename sid₂ seq₂ j₂ m₂) :
    sid₁ = sid₂ ∧ seq₁ = seq₂ ∧ j₁ = j₂ ∧
      Int.toNat ⌊m₁⌋ = Int.toNat ⌊m₂⌋ := by
  have hdata := congrArg String.data heq
  simp only [screenshotFilename, String.data_append, List.append_assoc] at hdata
  obtain ⟨hsid, hrest⟩ := List.append_inj hdata hlen
  have hrest2 := List.append_cancel_left hrest
  simp only [List.singleton_append] at hrest2
  obtain ⟨hseqd, _, htail⟩ := digits_split _ _ _ _ _ _
    (natRepr_digits seq₁) (natRepr_digits seq₂) (by decide) (by decide) hrest2
  have hseq : seq₁ = seq₂ := natRepr_inj (String.ext hseqd)
  rcases tracked_nonprefix j₁ hj₁ j₂ hj₂ with hjeq | ⟨hf1, hf2⟩
  · subst hjeq
    have htail2 := List.append_cancel_left htail
    injection htail2 with _ htail3
    obtain ⟨hkd, _, _⟩ := digits_split _ _ _ _ _ _
      (natRepr_digits (Int.toNat ⌊m₁⌋)) (natRepr_digits (Int.toNat ⌊m₂⌋))
      (by decide) (by decide) htail3
    exact ⟨String.ext hsid, hseq, rfl, natRepr_inj (String.ext hkd)⟩
  · exfalso
    rcases append_eq_initSeg _ _ _ _ htail with hs | hs
    · rw [hf1] at hs
      exact absurd hs (by simp)
    · rw [hf2] at hs
      exact absurd hs (by simp)

/-- Claim C8 witness: the amended statement applied at a concrete call. -/
theorem C8_witness :
    ("20240101_120000" : String).length = ("20240101_120000" : String).length ∧
    ("left_elbow" : String) ∈ TRACKED_JOINTS ∧
    (("20240101_120000" : String) = "20240101_120000" ∧ (7 : Nat) = 7 ∧
      ("left_elbow" : String) = "left_elbow" ∧
      Int.toNat ⌊(81/5 : ℚ)⌋ = Int.toNat ⌊(81/5 : ℚ)⌋) :=
  ⟨rfl, by decide,
   C8_filename_uniqueness "20240101_120000" "20240101_120000" 7 7
     "left_elbow" "left_elbow" (81/5) (81/5) rfl (by decide) (by decide) rfl⟩

/-! ### Claim C9: per-frame result emission -/

/-- Claim C9 failing input: a frame that decodes to a valid image, on which
the detectors return without raising but detect no body pose, processed
while the loop-local `use3D` variable has never been assigned (i.e. no
earlier frame of this loop run had a detected pose).  The loop body reaches
`if use3D:` (app.py line 924) with the local still unbound — `use3D` is
only assigned inside the `if pose_results.pose_landmarks:` block (line
885) — so an `UnboundLocalError` is raised and caught by the handler at
line 992, and NO result record is emitted, contradicting the claim that
such a frame still produces one emitted record with an empty body list. -/
theorem C9_unbound_use3D :
    (iterInference
      { use3D := none, smoother := PoseSmoothing.init (7/10),
        tracker := initialTracker 1000 "20240101_120000" 0 }
      { frame := ⟨"payload", 0, 1, true⟩
        decoded := some ⟨0, 640, 480⟩
        pose_landmarks := none
        pose_world := none
        hands := ⟨[], []⟩
        tracking_active := false
        mock_scores := fun _ => 0
        now := 0 }).1 = IterOutcome.errorCaught := rfl

end LiveDance
